import Mathlib

/-!
Verification of the Python Togo FastAPI application (`src/main.py`).

The development shallowly embeds the request-handling logic of the
application: the language-resolution function `get_language`, the
locale projection of the in-memory sample records (`SAMPLE_EVENTS`,
`SAMPLE_NEWS`), the pydantic request models (`JoinRequest`,
`PartnershipRequest`, `ContactSubmit`) together with their payload
decoding, the storage wrappers `get_data` / `insert_data` (the external
Supabase client is an oracle parameter), and the three submission
handlers `join_submit`, `contact_submit`, `partnership_submit`.

Python exceptions that escape a handler (pydantic `ValidationError`
raised inside the handler body, `AttributeError` from accessing a field
a model does not declare) are represented in the `Except` error
component; FastAPI turns such an escaped exception into an HTTP 500
response, never a 400.
-/

namespace PyTogo

/-- A JSON / form value as it appears in a decoded request payload:
a Python `str`, `bool`, `int`, or `None`. -/
inductive PyValue where
  | vstr (s : String)
  | vbool (b : Bool)
  | vint (n : Int)
  | vnull
  deriving DecidableEq, Repr

/-- A decoded request body: what `await request.json()` (a JSON object) or
`dict(await request.form())` produce, as an association list in field order. -/
abbrev Payload := List (String × PyValue)

/-- Python `==` restricted to the embedded value types. Python booleans are
numbers, so `True == 1` and `False == 0` hold. -/
def pyEq : PyValue → PyValue → Bool
  | .vbool a, .vbool b => a = b
  | .vbool a, .vint n => (if a then (1 : Int) else 0) = n
  | .vint n, .vbool a => n = (if a then (1 : Int) else 0)
  | .vint a, .vint b => a = b
  | .vstr a, .vstr b => a = b
  | .vnull, .vnull => true
  | _, _ => false

/-- Python `v in tup` for a tuple of values, using Python `==`. -/
def pyMem (v : PyValue) (tup : List PyValue) : Bool :=
  tup.any (pyEq v)

/-- The tuple `(True, "true", "True", "on", "1", 1)` used by the handlers to
normalize the consent flags. -/
def truthyTuple : List PyValue :=
  [.vbool true, .vstr "true", .vstr "True", .vstr "on", .vstr "1", .vint 1]

/-- Pydantic (lax-mode) coercion of a payload value into a `bool` model field:
booleans pass through, the ints `0` / `1` and the usual boolean strings
(case-insensitive) are coerced, anything else is a validation error. -/
def pydanticBool : PyValue → Option Bool
  | .vbool b => some b
  | .vint 0 => some false
  | .vint 1 => some true
  | .vint _ => none
  | .vstr s =>
    let t := s.toLower
    if t = "true" ∨ t = "t" ∨ t = "yes" ∨ t = "y" ∨ t = "on" ∨ t = "1" then
      some true
    else if t = "false" ∨ t = "f" ∨ t = "no" ∨ t = "n" ∨ t = "off" ∨ t = "0" then
      some false
    else
      none
  | .vnull => none

/-- Pydantic coercion of a payload value into a `str` model field. -/
def pydanticStr : PyValue → Option String
  | .vstr s => some s
  | _ => none

/-- Pydantic coercion for an optional string field (`str | None = None`):
an absent key or a JSON `null` becomes `None`, a string passes through. -/
def pydanticOptStr : Option PyValue → Option (Option String)
  | none => some none
  | some .vnull => some none
  | some (.vstr s) => some (some s)
  | some _ => none

/-- The locale keys of the in-memory `TRANSLATIONS` table. The table maps
each of `"fr"` and `"en"` to a string-keyed dictionary of UI strings; the
claims depend only on its key set, so the UI strings are not reproduced. -/
def TRANSLATIONS_KEYS : List String := ["fr", "en"]

/-- Python whitespace for `str.strip()`, at the ASCII characters that can
occur in an `Accept-Language` header. -/
def isPySpace (c : Char) : Bool :=
  c = ' ' ∨ c = '\t' ∨ c = '\n' ∨ c = '\r' ∨ c = '\x0b' ∨ c = '\x0c'

/-- Python `s.strip()` on the character list of a string. -/
def trimChars (l : List Char) : List Char :=
  ((l.dropWhile isPySpace).reverse.dropWhile isPySpace).reverse

/-- Python `s.split(sep)` for a one-character separator, on the character
list of the string: every field is kept, including empty ones, and the
result is always non-empty (`"".split(",") == [""]`). -/
def splitOnChar (sep : Char) : List Char → List (List Char)
  | [] => [[]]
  | c :: cs =>
    match splitOnChar sep cs with
    | [] => [[]]
    | g :: gs => if c = sep then [] :: g :: gs else (c :: g) :: gs

/-- Python `part.split(";")[0].strip().lower()` from the header loop of
`get_language`: the primary tag before any `;` quality parameter, with
surrounding whitespace removed, lowercased. -/
def primaryTag (part : List Char) : List Char :=
  (trimChars (part.takeWhile (fun c => ¬ c = ';'))).map Char.toLower

/-- The body of the `for part in accept.split(","):` loop of `get_language`:
the first primary tag starting with `fr` or `en` decides, and falling off
the end of the loop returns `"fr"`. -/
def scanAcceptParts : List (List Char) → String
  | [] => "fr"
  | part :: rest =>
    let code := primaryTag part
    if List.isPrefixOf ['f', 'r'] code then "fr"
    else if List.isPrefixOf ['e', 'n'] code then "en"
    else scanAcceptParts rest

/-- The `Accept-Language` fallback of `get_language`: the header is read with
default `""`, and the scan loop only runs when it is non-empty (`if accept:`). -/
def acceptFallback (accept : String) : String :=
  if accept = "" then "fr" else scanAcceptParts (splitOnChar ',' accept.data)

/-- Embeds `get_language` from `src/main.py`: `request.cookies.get("lang")` is the
`cookieLang` argument and `request.headers.get("accept-language", "")` is the
`accept` argument. A cookie whose value is a key of `TRANSLATIONS` wins,
otherwise the `Accept-Language` header is scanned, otherwise `"fr"`. -/
def get_language (cookieLang : Option String) (accept : String) : String :=
  match cookieLang with
  | some c => if c ∈ TRANSLATIONS_KEYS then c else acceptFallback accept
  | none => acceptFallback accept

/-- Modelled from the spec: one step of the section 4.1 header scan — the
primary tag of the part (the token before any `;` quality parameter, surrounding
whitespace removed) lowercased, matched against `fr` / `en` prefixes. -/
def specTagMatch (part : List Char) : Option String :=
  let tag := primaryTag part
  if List.isPrefixOf ['f', 'r'] tag then some "fr"
  else if List.isPrefixOf ['e', 'n'] tag then some "en"
  else none

/-- Modelled from the spec: the `resolveLocale` algorithm of section 4.1,
step 2 — scan the comma-separated header parts in order and return the
first `"fr"` / `"en"` hit, defaulting to `"fr"`. -/
def resolveLocaleHeader (accept : String) : String :=
  ((splitOnChar ',' accept.data).findSome? specTagMatch).getD "fr"

/-- Modelled from the spec: `resolveLocale(cookies, headerAcceptLanguage)` of
section 4.1 — ordered, first match wins: the `lang` cookie when it is a key of
the TranslationTable, else the header scan, else the default `"fr"`. -/
def resolveLocale (cookieLang : Option String) (accept : String) : String :=
  match cookieLang with
  | some c => if c ∈ TRANSLATIONS_KEYS then c else resolveLocaleHeader accept
  | none => resolveLocaleHeader accept

example : get_language (some "en") "fr-FR" = "en" := by decide
example : get_language (some "de") "" = "fr" := by decide
example : get_language none "en-US,fr;q=0.8" = "en" := by decide
example : get_language none "de-DE, en;q=0.5" = "en" := by decide

/-- The pydantic model `JoinRequest`: `name` and `email` are required strings,
the rest are `str | None = None`. It declares no consent fields. -/
structure JoinRequest where
  name : String
  email : String
  phone : Option String
  city : Option String
  level : Option String
  interests : Option String
  deriving DecidableEq, Repr

/-- Embeds `JoinRequest(**data)`: pydantic validation of a decoded payload.
Unknown keys (pydantic default `extra="ignore"`) are ignored; a missing or
non-coercible required field is a `ValidationError` (`none`). -/
def JoinRequest.decode (p : Payload) : Option JoinRequest := do
  let name ← (p.lookup "name").bind pydanticStr
  let email ← (p.lookup "email").bind pydanticStr
  let phone ← pydanticOptStr (p.lookup "phone")
  let city ← pydanticOptStr (p.lookup "city")
  let level ← pydanticOptStr (p.lookup "level")
  let interests ← pydanticOptStr (p.lookup "interests")
  some ⟨name, email, phone, city, level, interests⟩

/-- The pydantic model `PartnershipRequest`. It declares no consent fields. -/
structure PartnershipRequest where
  organization : String
  contact_name : String
  email : String
  website : Option String
  message : Option String
  deriving DecidableEq, Repr

/-- Embeds `PartnershipRequest(**data)`: pydantic validation of a decoded payload. -/
def PartnershipRequest.decode (p : Payload) : Option PartnershipRequest := do
  let organization ← (p.lookup "organization").bind pydanticStr
  let contact_name ← (p.lookup "contact_name").bind pydanticStr
  let email ← (p.lookup "email").bind pydanticStr
  let website ← pydanticOptStr (p.lookup "website")
  let message ← pydanticOptStr (p.lookup "message")
  some ⟨organization, contact_name, email, website, message⟩

/-- The pydantic model `ContactSubmit`: all six fields are required, and the
two consent flags are declared `bool`, so pydantic coerces them at decode
time. -/
structure ContactSubmit where
  name : String
  email : String
  subject : String
  message : String
  agree_privacy : Bool
  agree_coc : Bool
  deriving DecidableEq, Repr

/-- Embeds `ContactSubmit(**data)`: pydantic validation of a decoded payload. -/
def ContactSubmit.decode (p : Payload) : Option ContactSubmit := do
  let name ← (p.lookup "name").bind pydanticStr
  let email ← (p.lookup "email").bind pydanticStr
  let subject ← (p.lookup "subject").bind pydanticStr
  let message ← (p.lookup "message").bind pydanticStr
  let agree_privacy ← (p.lookup "agree_privacy").bind pydanticBool
  let agree_coc ← (p.lookup "agree_coc").bind pydanticBool
  some ⟨name, email, subject, message, agree_privacy, agree_coc⟩

/-- A Python exception escaping a handler body. FastAPI/Starlette turn it
into an HTTP 500 response, never a 400. -/
inductive PyError where
  /-- `AttributeError`: the named attribute was accessed on a pydantic model
  that does not declare it. -/
  | attributeError (attr : String)
  /-- A pydantic `ValidationError` raised by `Model(**data)` inside the
  handler body (uncaught there). -/
  | validationError
  deriving DecidableEq, Repr

/-- A `JSONResponse`: status code (200 when not given) and JSON body. -/
structure Response where
  status : Nat
  body : List (String × PyValue)
  deriving DecidableEq, Repr

/-- One call to `insert_data`: the table name and the serialized record. -/
abbrev InsertCall := String × String

/-- The external Supabase client, as an oracle: inserting `data` into
`table` either succeeds or raises (the exception message is the payload of
`Except.error`). -/
abbrev InsertOracle := String → String → Except String Unit

/-- The external Supabase client for reads, as an oracle over an arbitrary
record type `R`: `supabase.table(table).select("*").execute().data`, or an
exception. -/
abbrev SelectOracle (R : Type) := String → Except String (List R)

/-- Embeds `insert_data` from `src/main.py`: `True` when the insert succeeds,
`False` when any exception is raised (caught by the `try`/`except`). -/
def insert_data (store : InsertOracle) (table : String) (data : String) : Bool :=
  match store table data with
  | .ok _ => true
  | .error _ => false

/-- Embeds `get_data` from `src/main.py`: the rows of the table, or `[]` when any
exception is raised (caught by the `try`/`except`). -/
def get_data {R : Type} (store : SelectOracle R) (table : String) : List R :=
  match store table with
  | .ok rows => rows
  | .error _ => []

/-- Startup read `PARTNERS = get_data("partners")`, loaded once at startup. -/
def PARTNERS {R : Type} (store : SelectOracle R) : List R :=
  get_data store "partners"

/-- Startup read `GALLERIES = get_data("galleries")`, loaded once at startup. -/
def GALLERIES {R : Type} (store : SelectOracle R) : List R :=
  get_data store "galleries"

/-- Substring membership on character lists. -/
def containsSubList (pattern : List Char) : List Char → Bool
  | [] => pattern.isEmpty
  | c :: rest => List.isPrefixOf pattern (c :: rest) || containsSubList pattern rest

/-- Python `pattern in s` on strings, used for `"application/json" in ct`. -/
def strContains (s pattern : String) : Bool :=
  containsSubList pattern.data s.data

/-- JSON string escaping for `json.dumps` (the characters occurring in the
submissions at hand: quote and backslash). -/
def jsonEscapeChar (c : Char) : List Char :=
  if c = '"' then ['\\', '"'] else if c = '\\' then ['\\', '\\'] else [c]

/-- A JSON string literal as `json.dumps` renders it. -/
def jsonStr (s : String) : String :=
  ⟨'"' :: (s.data.foldr (fun c acc => jsonEscapeChar c ++ acc) ['"'])⟩

/-- Rendering by `json.dumps` of an optional string field (`None` renders as `null`). -/
def jsonOptStr : Option String → String
  | none => "null"
  | some s => jsonStr s

/-- Rendering by `json.dumps` of a boolean field. -/
def jsonBool : Bool → String
  | true => "true"
  | false => "false"

/-- Serialization `json.dumps(data.dict())` for a validated `ContactSubmit`: the fields in
declaration order, with the default `", "` / `": "` separators. -/
def ContactSubmit.dumps (d : ContactSubmit) : String :=
  "\x7b" ++ jsonStr "name" ++ ": " ++ jsonStr d.name
    ++ ", " ++ jsonStr "email" ++ ": " ++ jsonStr d.email
    ++ ", " ++ jsonStr "subject" ++ ": " ++ jsonStr d.subject
    ++ ", " ++ jsonStr "message" ++ ": " ++ jsonStr d.message
    ++ ", " ++ jsonStr "agree_privacy" ++ ": " ++ jsonBool d.agree_privacy
    ++ ", " ++ jsonStr "agree_coc" ++ ": " ++ jsonBool d.agree_coc
    ++ "\x7d"

/-- Embeds `contact_submit` (`POST /api/v1/contact`). The request is presented as
its content-type header `ct` and its decoded body `payload`; both arms of
the content-type branch build `ContactSubmit` from that decoded dictionary
(`await request.json()` in the JSON arm, `dict(await request.form())` in the
form arm). `emailValid` is the external `validate_email(...,
check_deliverability=True)` call: `false` means it raises
`EmailNotValidError`, which the handler catches. The second component of the
result lists the `insert_data` calls the handler made. -/
def contact_submit (emailValid : String → Bool) (store : InsertOracle)
    (ct : String) (payload : Payload) :
    Except PyError (Response × List InsertCall) :=
  match (if strContains ct "application/json"
         then ContactSubmit.decode payload
         else ContactSubmit.decode payload) with
  | none => .error .validationError
  | some data =>
    if emailValid data.email = false then
      .ok (⟨400, [("error", .vstr "Please use a valide email")]⟩, [])
    else
      let agree_privacy := pyMem (.vbool data.agree_privacy) truthyTuple
      let agree_coc := pyMem (.vbool data.agree_coc) truthyTuple
      if agree_privacy = false ∨ agree_coc = false then
        .ok (⟨400, [("error", .vstr "consent_required")]⟩, [])
      else
        let serialized := ContactSubmit.dumps data
        if insert_data store "contacts" serialized then
          .ok (⟨200, [("status", .vstr "received")]⟩, [("contacts", serialized)])
        else
          .ok (⟨200, [("status", .vstr "Failed")]⟩, [("contacts", serialized)])

/-- Embeds `join_submit` (`POST /api/v1/join`), embedded like `contact_submit`.
After a passing email check the body evaluates `data.agree_privacy`, but the
`JoinRequest` model declares no `agree_privacy` field, so the attribute
access raises `AttributeError` and the consent check, the insert and the
success response are unreachable. -/
def join_submit (emailValid : String → Bool) (_store : InsertOracle)
    (ct : String) (payload : Payload) :
    Except PyError (Response × List InsertCall) :=
  match (if strContains ct "application/json"
         then JoinRequest.decode payload
         else JoinRequest.decode payload) with
  | none => .error .validationError
  | some data =>
    if emailValid data.email = false then
      .ok (⟨400, [("error", .vstr "Please use a valide email")]⟩, [])
    else
      .error (.attributeError "agree_privacy")

/-- Embeds `partnership_submit` (`POST /api/v1/partnership`). In the source the
handler parameter is annotated `PartnershipRequest`, so FastAPI hands the
handler the validated pydantic model rather than the raw request object.
The first statement of the body, `request.headers.get("content-type", "")`,
accesses an attribute `headers` that `PartnershipRequest` does not declare,
so it raises `AttributeError` on every invocation; the decoding branch, the
email check, the consent check and the insert below it are unreachable. -/
def partnership_submit (_request : PartnershipRequest) :
    Except PyError (Response × List InsertCall) :=
  .error (.attributeError "headers")

/-- A per-locale translation entry: a dictionary of text fields
(`title`, `description` / `excerpt` / `body`). -/
abbrev TextFields := List (String × String)

/-- A record of `SAMPLE_EVENTS`: id, date, location, and the per-locale
translation dictionaries. -/
structure EventRecord where
  id : Int
  date : String
  location : String
  translations : List (String × TextFields)
  deriving DecidableEq, Repr

/-- A record of `SAMPLE_NEWS`: id, date, an optional image URL, and the
per-locale translation dictionaries. -/
structure NewsRecord where
  id : Int
  date : String
  image : Option String
  translations : List (String × TextFields)
  deriving DecidableEq, Repr

/-- Embeds `SAMPLE_EVENTS` from `src/main.py` (apostrophes written `\x27`). -/
def SAMPLE_EVENTS : List EventRecord :=
  [⟨1, "2025-12-05", "Lomé",
    [("fr", [("title", "Atelier Python débutant"),
             ("description", "Introduction à Python pour les nouveaux développeurs.")]),
     ("en", [("title", "Beginner Python workshop"),
             ("description", "Introduction to Python for new developers.")])]⟩,
   ⟨3, "2025-07-20  to 2025-08-22", "Lomé",
    [("fr", [("title", "Challenge 30 jours de code Python"),
             ("description", "Challenge d\x27introduction à Python pour les nouveaux développeurs.")]),
     ("en", [("title", "30 Days of Python Code Challenge"),
             ("description", "Introductory Python challenge for new developers.")])]⟩,
   ⟨2, "2026-01-20", "Lomé",
    [("fr", [("title", "Data Science avec Python"),
             ("description", "Atelier sur les bases de la data science.")]),
     ("en", [("title", "Data Science with Python"),
             ("description", "Workshop on the basics of data science.")])]⟩]

/-- Embeds `SAMPLE_NEWS` from `src/main.py` (apostrophes written `\x27`). -/
def SAMPLE_NEWS : List NewsRecord :=
  [⟨1, "2025-11-01",
    some "https://res.cloudinary.com/dvg7vky5o/image/upload/v1763440928/20251117_200618_tsfc73.jpg",
    [("fr", [("title", "Lancement d\x27un nouvel atelier Python"),
             ("excerpt", "Nous organisons un atelier sur les bases de Python."),
             ("body", "Rejoignez-nous pour un atelier d\x27introduction à Python, destiné aux débutants. Détails, date et inscription seront communiqués prochainement.")]),
     ("en", [("title", "Launching a new Python workshop"),
             ("excerpt", "We are organizing a beginner-friendly Python workshop."),
             ("body", "Join us for an introductory Python workshop for newcomers. Details, date, and registration will be shared soon.")])]⟩,
   ⟨2, "2025-09-15",
    some "https://res.cloudinary.com/dvg7vky5o/image/upload/v1763440928/20251117_200618_tsfc73.jpg",
    [("fr", [("title", "Rencontre communautaire à Lomé"),
             ("excerpt", "Retour sur la rencontre mensuelle."),
             ("body", "Compte-rendu de notre dernière rencontre communautaire à Lomé avec les ressources partagées et les annonces.")]),
     ("en", [("title", "Community meetup in Lomé"),
             ("excerpt", "Recap of the monthly meetup."),
             ("body", "A recap of our latest community meetup in Lomé with shared resources and announcements.")])]⟩,
   ⟨3, "2025-08-23",
    some "https://res.cloudinary.com/dvg7vky5o/image/upload/v1747588996/Group_6_r7n6id.png",
    [("fr", [("title", "Rapport de la PyCon Togo 2025"),
             ("excerpt", "Retour sur la PyCon Togo 2025."),
             ("body", "Compte-rendu de la PyCon Togo 2025 avec les ressources partagées et les annonces. lire plus: https://report.pytogo.org/rapport-de-la-pycon-togo-2025")]),
     ("en", [("title", "PyCon Togo 2025 Report"),
             ("excerpt", "Recap of the PyCon Togo 2025."),
             ("body", "A recap of the PyCon Togo 2025 with shared resources and announcements. read more: https://report.pytogo.org")])]⟩]

/-- The projected news dictionary built by `home` and `actualities`. -/
structure NewsItem where
  id : Int
  date : String
  title : String
  excerpt : String
  image : String
  deriving DecidableEq, Repr

/-- The projected news dictionary built by `news_detail`. -/
structure NewsDetailItem where
  id : Int
  date : String
  title : String
  body : String
  image : String
  deriving DecidableEq, Repr

/-- The projected event dictionary built by `events` and `event_detail`. -/
structure EventItem where
  id : Int
  date : String
  location : String
  title : String
  description : String
  deriving DecidableEq, Repr

/-- Placeholder `f"https://picsum.photos/seed/news-..."` (600x340), the id-keyed
fallback image URL used by `home` and `actualities`. -/
def newsImagePlaceholder (i : Int) : String :=
  "https://picsum.photos/seed/news-" ++ toString i ++ "/600/340"

/-- Placeholder `f"https://picsum.photos/seed/news-..."` (1200x680), the id-keyed
fallback image URL used by `news_detail`. -/
def newsImagePlaceholderLarge (i : Int) : String :=
  "https://picsum.photos/seed/news-" ++ toString i ++ "/1200/680"

/-- Models `n.get("image") or placeholder`: Python `or` falls through both on a
missing key and on a falsy (empty) string. -/
def imageOr (img : Option String) (placeholder : String) : String :=
  match img with
  | some s => if s = "" then placeholder else s
  | none => placeholder

/-- Models `tr.get(field, "")` after `tr = n.get("translations", {}).get(lang, {})`:
the text field of the `lang` entry of the record, or `""` when either level of
the lookup misses. -/
def trField (translations : List (String × TextFields)) (lang field : String) : String :=
  (((translations.lookup lang).getD []).lookup field).getD ""

/-- The news projection of `home` / `actualities` (the dictionary built in
their `for n in SAMPLE_NEWS` loops). -/
def projectNewsItem (lang : String) (n : NewsRecord) : NewsItem :=
  { id := n.id
    date := n.date
    title := trField n.translations lang "title"
    excerpt := trField n.translations lang "excerpt"
    image := imageOr n.image (newsImagePlaceholder n.id) }

/-- The news projection of `news_detail` (the `item` dictionary). -/
def projectNewsDetail (lang : String) (n : NewsRecord) : NewsDetailItem :=
  { id := n.id
    date := n.date
    title := trField n.translations lang "title"
    body := trField n.translations lang "body"
    image := imageOr n.image (newsImagePlaceholderLarge n.id) }

/-- The event projection of `events` / `event_detail` (the dictionary built
there; `e.get("location", "")` is the location of the record). -/
def projectEventItem (lang : String) (e : EventRecord) : EventItem :=
  { id := e.id
    date := e.date
    location := e.location
    title := trField e.translations lang "title"
    description := trField e.translations lang "description" }

/-- The ordering used by `sorted(news_items, key=lambda x: x["date"],
reverse=True)`: descending on the date string. -/
def newsDateGe (a b : NewsItem) : Prop := b.date ≤ a.date

instance : DecidableRel newsDateGe := fun a b =>
  inferInstanceAs (Decidable (b.date ≤ a.date))

instance : IsTotal NewsItem newsDateGe := ⟨fun a b => le_total b.date a.date⟩

instance : IsTrans NewsItem newsDateGe :=
  ⟨fun _ _ _ hab hbc => le_trans hbc hab⟩

/-- Models `sorted(news_items, key=lambda x: x["date"], reverse=True)[:2]` from
`home`. The Python sort is stable, and a stable sort is extensionally unique,
so the stable `List.insertionSort` with the descending-date relation builds
the same list. -/
def newsPreview (items : List NewsItem) : List NewsItem :=
  (List.insertionSort newsDateGe items).take 2

/-- The `news_home` list assembled by `home`: project every sample news
record, then sort by date descending and keep the first two. -/
def homeNews (lang : String) : List NewsItem :=
  newsPreview (SAMPLE_NEWS.map (projectNewsItem lang))

/-- A raised `HTTPException(status_code=..., detail=...)`. -/
structure HTTPException where
  status : Nat
  detail : String
  deriving DecidableEq, Repr

/-- Embeds `event_detail` (`GET /events/{event_id}`):
`next((e for e in SAMPLE_EVENTS if e["id"] == event_id), None)`, a 404 when
nothing matches, otherwise the projected item. -/
def event_detail (lang : String) (event_id : Int) : Except HTTPException EventItem :=
  match SAMPLE_EVENTS.find? (fun e => e.id == event_id) with
  | none => .error ⟨404, "Event not found"⟩
  | some found => .ok (projectEventItem lang found)

/-- Embeds `news_detail` (`GET /actualities/{news_id}`):
`next((n for n in SAMPLE_NEWS if n["id"] == news_id), None)`, a 404 when
nothing matches, otherwise the projected item. -/
def news_detail (lang : String) (news_id : Int) : Except HTTPException NewsDetailItem :=
  match SAMPLE_NEWS.find? (fun n => n.id == news_id) with
  | none => .error ⟨404, "News not found"⟩
  | some found => .ok (projectNewsDetail lang found)

/-- An email oracle under which `validate_email` accepts every address. -/
def acceptAllEmails : String → Bool := fun _ => true

/-- An email oracle under which `validate_email` raises
`EmailNotValidError` for every address. -/
def rejectAllEmails : String → Bool := fun _ => false

/-- A storage oracle whose inserts all succeed. -/
def okInsert : InsertOracle := fun _ _ => .ok ()

/-- A storage oracle whose inserts all raise. -/
def failInsert : InsertOracle := fun _ _ => .error "connection refused"

/-- A read oracle (over bare `Nat` records) that always raises. -/
def failSelect : SelectOracle Nat := fun _ => .error "supabase unavailable"

/-- A join submission with a well-formed email whose consent flags are both
present and `false`. `JoinRequest` declares no consent fields, so the two
flags are ignored as extra keys and the payload decodes. -/
def joinConsentPayload : Payload :=
  [("name", .vstr "Ada"), ("email", .vstr "ada@example.com"),
   ("agree_privacy", .vbool false), ("agree_coc", .vbool false)]

/-- A contact payload with the given field values, as the decoded JSON / form
dictionary. -/
def mkContactPayload (name email subject message : String) (ap ac : Bool) : Payload :=
  [("name", .vstr name), ("email", .vstr email), ("subject", .vstr subject),
   ("message", .vstr message), ("agree_privacy", .vbool ap), ("agree_coc", .vbool ac)]

/-- A fully valid contact submission. -/
def contactPayload : Payload :=
  mkContactPayload "Ada" "ada@example.com" "Hello" "Bonjour" true true

/-- A contact submission with a malformed email and refused consent. -/
def contactBadEmailPayload : Payload :=
  mkContactPayload "Ada" "not-an-email" "Hello" "Bonjour" false false

/-- A news record with no `en` translation entry and no image. -/
def bareNewsRecord : NewsRecord :=
  ⟨7, "2025-01-01", none, [("fr", [("title", "Titre")])]⟩

/-- An event record with no translation entries at all. -/
def bareEventRecord : EventRecord :=
  ⟨8, "2025-02-02", "Lomé", []⟩

/-! ## Theorems -/

theorem scanAcceptParts_eq (parts : List (List Char)) :
    scanAcceptParts parts = (parts.findSome? specTagMatch).getD "fr" := by
  induction parts with
  | nil => rfl
  | cons part rest ih =>
    simp only [scanAcceptParts, specTagMatch, List.findSome?]
    split_ifs <;> simp [ih]

theorem scanAcceptParts_fr_or_en (parts : List (List Char)) :
    scanAcceptParts parts = "fr" ∨ scanAcceptParts parts = "en" := by
  induction parts with
  | nil => exact Or.inl rfl
  | cons part rest ih =>
    simp only [scanAcceptParts]
    split_ifs <;> simp [ih]

theorem acceptFallback_eq_resolveLocaleHeader (accept : String) :
    acceptFallback accept = resolveLocaleHeader accept := by
  unfold acceptFallback resolveLocaleHeader
  split_ifs with h
  · subst h; rfl
  · exact scanAcceptParts_eq _

theorem acceptFallback_fr_or_en (accept : String) :
    acceptFallback accept = "fr" ∨ acceptFallback accept = "en" := by
  unfold acceptFallback
  split_ifs
  · exact Or.inl rfl
  · exact scanAcceptParts_fr_or_en _

/-- C3: `get_language` resolves the locale exactly as specified: a `lang`
cookie whose value is a key of the translation table is returned as is; any
other cookie value falls through to header parsing; on the whole input
space the function agrees with the `resolveLocale` of the spec (cookie, then
first `fr` / `en` primary-tag hit of the comma-separated header parts, then
the default); the header `"en-US,fr;q=0.8"` resolves to `"en"`; and the
result is always a valid locale, `"fr"` or `"en"`. -/
theorem c3_get_language_resolves_locale :
    (∀ c accept, c ∈ TRANSLATIONS_KEYS → get_language (some c) accept = c)
    ∧ (∀ c accept, c ∉ TRANSLATIONS_KEYS →
        get_language (some c) accept = get_language none accept)
    ∧ (∀ cookieLang accept,
        get_language cookieLang accept = resolveLocale cookieLang accept)
    ∧ (∀ cookieLang accept,
        get_language cookieLang accept = "fr" ∨ get_language cookieLang accept = "en")
    ∧ get_language none "en-US,fr;q=0.8" = "en" := by
  refine ⟨?_, ?_, ?_, ?_, by decide⟩
  · intro c accept h
    simp [get_language, h]
  · intro c accept h
    simp [get_language, h]
  · intro cookieLang accept
    cases cookieLang with
    | none => exact acceptFallback_eq_resolveLocaleHeader accept
    | some c =>
      simp only [get_language, resolveLocale]
      split_ifs
      · rfl
      · exact acceptFallback_eq_resolveLocaleHeader accept
  · intro cookieLang accept
    cases cookieLang with
    | none => exact acceptFallback_fr_or_en accept
    | some c =>
      simp only [get_language]
      split_ifs with h
      · simpa [TRANSLATIONS_KEYS] using h
      · exact acceptFallback_fr_or_en accept

theorem c3_get_language_resolves_locale_witness :
    (("fr" : String) ∈ TRANSLATIONS_KEYS ∧ get_language (some "fr") "en-US" = "fr")
    ∧ (("de" : String) ∉ TRANSLATIONS_KEYS
        ∧ get_language (some "de") "en-US" = get_language none "en-US") :=
  ⟨⟨by decide, c3_get_language_resolves_locale.1 "fr" "en-US" (by decide)⟩,
   ⟨by decide, c3_get_language_resolves_locale.2.1 "de" "en-US" (by decide)⟩⟩

/-- C1 (failing input): the join payload `joinConsentPayload` has a valid
shape — `JoinRequest` ignores the consent keys as extras, so it decodes —
and both consent flags are `false`, yet `join_submit` does not return the
HTTP 400 `consent_required` response: evaluating `data.agree_privacy` on
the consent-free `JoinRequest` model raises `AttributeError`, which
surfaces as an HTTP 500. -/
theorem c1_join_consent_yields_500 :
    JoinRequest.decode joinConsentPayload
      = some ⟨"Ada", "ada@example.com", none, none, none, none⟩
    ∧ join_submit acceptAllEmails okInsert "application/json" joinConsentPayload
      = .error (.attributeError "agree_privacy") :=
  ⟨rfl, rfl⟩

/-- C2 (failing input): the dual JSON/form decoding contract fails for the
partnership endpoint — `partnership_submit` raises `AttributeError` on
every request, JSON or form-encoded, because its parameter is the pydantic
model and the first statement of the body reads `request.headers` from it. For
the other two endpoints the content-type branch is immaterial: both arms
build the same validated model from the decoded payload. -/
theorem c2_partnership_decoding_crashes :
    (∀ req : PartnershipRequest,
        partnership_submit req = .error (.attributeError "headers"))
    ∧ (∀ emailValid store ct ct2 p,
        join_submit emailValid store ct p = join_submit emailValid store ct2 p)
    ∧ (∀ emailValid store ct ct2 p,
        contact_submit emailValid store ct p = contact_submit emailValid store ct2 p) := by
  refine ⟨fun _ => rfl, ?_, ?_⟩
  · intro ev st ct ct2 p
    simp only [join_submit, ite_self]
  · intro ev st ct ct2 p
    simp only [contact_submit, ite_self]

theorem decode_mkContactPayload (n e s m : String) (ap ac : Bool) :
    ContactSubmit.decode (mkContactPayload n e s m ap ac) = some ⟨n, e, s, m, ap, ac⟩ :=
  rfl

theorem pyMem_vbool_truthyTuple (b : Bool) :
    pyMem (.vbool b) truthyTuple = b := by
  cases b <;> rfl

/-- C4 (counterexample): on a contact submission whose email fails
validation, the 400 response of the endpoint carries the error code
`"Please use a valide email"` — the spelling used by the code — which is not the
claimed exact string `"Please use a valid email"`. -/
theorem c4_email_error_string_counterexample :
    contact_submit rejectAllEmails okInsert "application/json" contactBadEmailPayload
      = .ok (⟨400, [("error", .vstr "Please use a valide email")]⟩, [])
    ∧ ("Please use a valide email" : String) ≠ "Please use a valid email" :=
  ⟨rfl, by decide⟩

/-- C4 (amended): every submission to the contact or join endpoint whose
payload decodes and whose email fails format-plus-deliverability validation
is rejected with HTTP 400 and error code exactly `"Please use a valide
email"` (as spelled in the code); the failure is never silently dropped,
and no insert is attempted. -/
theorem c4_invalid_email_rejected :
    (∀ emailValid store ct p (data : ContactSubmit),
        ContactSubmit.decode p = some data →
        emailValid data.email = false →
        contact_submit emailValid store ct p
          = .ok (⟨400, [("error", .vstr "Please use a valide email")]⟩, []))
    ∧ (∀ emailValid store ct p (data : JoinRequest),
        JoinRequest.decode p = some data →
        emailValid data.email = false →
        join_submit emailValid store ct p
          = .ok (⟨400, [("error", .vstr "Please use a valide email")]⟩, [])) := by
  constructor
  · intro ev st ct p data hdec hemail
    unfold contact_submit
    rw [ite_self, hdec]
    simp [hemail]
  · intro ev st ct p data hdec hemail
    unfold join_submit
    rw [ite_self, hdec]
    simp [hemail]

theorem c4_invalid_email_rejected_witness :
    ContactSubmit.decode contactBadEmailPayload
      = some ⟨"Ada", "not-an-email", "Hello", "Bonjour", false, false⟩
    ∧ rejectAllEmails "not-an-email" = false
    ∧ contact_submit rejectAllEmails okInsert "text/html" contactBadEmailPayload
      = .ok (⟨400, [("error", .vstr "Please use a valide email")]⟩, []) :=
  ⟨rfl, rfl,
   c4_invalid_email_rejected.1 rejectAllEmails okInsert "text/html" contactBadEmailPayload
     ⟨"Ada", "not-an-email", "Hello", "Bonjour", false, false⟩ rfl rfl⟩

/-- C5: a decodable contact submission with an email that fails validation
is answered with the HTTP 400 email error whatever the values of the two
consent flags: the email check is decided before, and independently of,
the consent check. -/
theorem c5_email_checked_before_consent :
    ∀ emailValid store ct (name email subject message : String) (ap ac : Bool),
      emailValid email = false →
      contact_submit emailValid store ct (mkContactPayload name email subject message ap ac)
        = .ok (⟨400, [("error", .vstr "Please use a valide email")]⟩, []) := by
  intro ev st ct n e s m ap ac hemail
  unfold contact_submit
  rw [ite_self, decode_mkContactPayload]
  simp [hemail]

theorem c5_email_checked_before_consent_witness :
    rejectAllEmails "not-an-email" = false
    ∧ contact_submit rejectAllEmails okInsert "application/json"
        (mkContactPayload "Ada" "not-an-email" "Hi" "Salut" false false)
      = .ok (⟨400, [("error", .vstr "Please use a valide email")]⟩, []) :=
  ⟨rfl, c5_email_checked_before_consent rejectAllEmails okInsert "application/json"
      "Ada" "not-an-email" "Hi" "Salut" false false rfl⟩

/-- C6 (counterexample): when the storage insert fails, the contact
non-fatal response body of the endpoint is `"status": "Failed"` — capital `F`
— not the claimed `{"status": "failed"}`. -/
theorem c6_failed_status_counterexample :
    contact_submit acceptAllEmails failInsert "application/json" contactPayload
      = .ok (⟨200, [("status", .vstr "Failed")]⟩,
             [("contacts",
               ContactSubmit.dumps ⟨"Ada", "ada@example.com", "Hello", "Bonjour", true, true⟩)])
    ∧ PyValue.vstr "Failed" ≠ PyValue.vstr "failed" :=
  ⟨rfl, by decide⟩

/-- C6 (amended): a contact submission that passes validation and both
consent checks has its validated payload serialized (`json.dumps` of the
model dict) and forwarded exactly once to the `contacts` storage table; a
storage failure is answered with the non-fatal HTTP 200 body
`{"status": "Failed"}` (no exception propagates and the insert is not
retried), and a storage success with `{"status": "received"}`. -/
theorem c6_storage_forwarding :
    ∀ emailValid store ct p (data : ContactSubmit),
      ContactSubmit.decode p = some data →
      emailValid data.email = true →
      data.agree_privacy = true →
      data.agree_coc = true →
      contact_submit emailValid store ct p
        = if insert_data store "contacts" (ContactSubmit.dumps data) then
            .ok (⟨200, [("status", .vstr "received")]⟩,
                 [("contacts", ContactSubmit.dumps data)])
          else
            .ok (⟨200, [("status", .vstr "Failed")]⟩,
                 [("contacts", ContactSubmit.dumps data)]) := by
  intro ev st ct p data hdec hemail hap hac
  unfold contact_submit
  rw [ite_self, hdec]
  simp [hemail, hap, hac, pyMem_vbool_truthyTuple]

theorem c6_storage_forwarding_witness :
    ContactSubmit.decode contactPayload
      = some ⟨"Ada", "ada@example.com", "Hello", "Bonjour", true, true⟩
    ∧ contact_submit acceptAllEmails failInsert "application/json" contactPayload
      = .ok (⟨200, [("status", .vstr "Failed")]⟩,
             [("contacts",
               ContactSubmit.dumps ⟨"Ada", "ada@example.com", "Hello", "Bonjour", true, true⟩)]) :=
  ⟨rfl,
   (c6_storage_forwarding acceptAllEmails failInsert "application/json" contactPayload
       ⟨"Ada", "ada@example.com", "Hello", "Bonjour", true, true⟩ rfl rfl rfl rfl).trans
     rfl⟩

/-- C7: record projection is total — a record whose translation table has no
entry for the resolved locale projects to empty-string text fields (title
and excerpt/body/description), never an error; the locale-independent id
and date are attached unchanged; and a record without an image gets the
deterministic picsum placeholder URL keyed by its id. -/
theorem c7_projection_never_fails :
    (∀ lang (n : NewsRecord), n.translations.lookup lang = none →
        (projectNewsItem lang n).title = "" ∧ (projectNewsItem lang n).excerpt = ""
        ∧ (projectNewsDetail lang n).title = "" ∧ (projectNewsDetail lang n).body = "")
    ∧ (∀ lang (e : EventRecord), e.translations.lookup lang = none →
        (projectEventItem lang e).title = "" ∧ (projectEventItem lang e).description = "")
    ∧ (∀ lang (n : NewsRecord),
        (projectNewsItem lang n).id = n.id ∧ (projectNewsItem lang n).date = n.date
        ∧ (projectNewsDetail lang n).id = n.id ∧ (projectNewsDetail lang n).date = n.date)
    ∧ (∀ lang (n : NewsRecord), n.image = none →
        (projectNewsItem lang n).image = newsImagePlaceholder n.id
        ∧ (projectNewsDetail lang n).image = newsImagePlaceholderLarge n.id) := by
  refine ⟨?_, ?_, ?_, ?_⟩
  · intro lang n h
    simp [projectNewsItem, projectNewsDetail, trField, h]
  · intro lang e h
    simp [projectEventItem, trField, h]
  · intro lang n
    simp [projectNewsItem, projectNewsDetail]
  · intro lang n h
    simp [projectNewsItem, projectNewsDetail, imageOr, h]

theorem c7_projection_never_fails_witness :
    bareNewsRecord.translations.lookup "en" = none
    ∧ (projectNewsItem "en" bareNewsRecord).title = ""
    ∧ bareNewsRecord.image = none
    ∧ (projectNewsItem "en" bareNewsRecord).image = newsImagePlaceholder 7
    ∧ bareEventRecord.translations.lookup "fr" = none
    ∧ (projectEventItem "fr" bareEventRecord).description = "" :=
  ⟨rfl,
   (c7_projection_never_fails.1 "en" bareNewsRecord rfl).1,
   rfl,
   (c7_projection_never_fails.2.2.2 "en" bareNewsRecord rfl).1,
   rfl,
   (c7_projection_never_fails.2.1 "fr" bareEventRecord rfl).2⟩

/-- C8: for every list of three or more projected news items, the home-page
news preview (`sorted(..., key=date, reverse=True)[:2]`) keeps at most two
items, is sorted by date descending (each kept date is ≥ every later
kept date), and the kept items dominate everything dropped from the sorted
permutation of the input; `home` builds its `news_home` list exactly this
way from the projected `SAMPLE_NEWS`. -/
theorem c8_home_news_preview :
    (∀ items : List NewsItem, 3 ≤ items.length →
        (newsPreview items).length ≤ 2
        ∧ List.Sorted newsDateGe (newsPreview items)
        ∧ (List.insertionSort newsDateGe items).Perm items
        ∧ (∀ x ∈ newsPreview items, ∀ y ∈ (List.insertionSort newsDateGe items).drop 2,
            y.date ≤ x.date))
    ∧ (∀ lang, homeNews lang = newsPreview (SAMPLE_NEWS.map (projectNewsItem lang))) := by
  constructor
  · intro items _
    have hs : List.Pairwise newsDateGe (List.insertionSort newsDateGe items) :=
      List.sorted_insertionSort newsDateGe items
    refine ⟨List.length_take_le 2 _, ?_, List.perm_insertionSort newsDateGe items, ?_⟩
    · exact List.Pairwise.sublist (List.take_sublist 2 _) hs
    · intro x hx y hy
      rw [← List.take_append_drop 2 (List.insertionSort newsDateGe items)] at hs
      exact (List.pairwise_append.mp hs).2.2 x hx y hy
  · intro lang
    rfl

theorem c8_home_news_preview_witness :
    3 ≤ (SAMPLE_NEWS.map (projectNewsItem "en")).length
    ∧ (newsPreview (SAMPLE_NEWS.map (projectNewsItem "en"))).length ≤ 2 :=
  ⟨by decide, (c8_home_news_preview.1 (SAMPLE_NEWS.map (projectNewsItem "en")) (by decide)).1⟩

/-- C9: an event id (resp. news id) matching no record of the sample data
makes the detail endpoint raise `HTTPException(404, "Event not found")`
(resp. `"News not found"`) instead of rendering a page with empty-string
fallbacks. -/
theorem c9_detail_endpoints_404 :
    (∀ lang event_id, (∀ e ∈ SAMPLE_EVENTS, e.id ≠ event_id) →
        event_detail lang event_id = .error ⟨404, "Event not found"⟩)
    ∧ (∀ lang news_id, (∀ n ∈ SAMPLE_NEWS, n.id ≠ news_id) →
        news_detail lang news_id = .error ⟨404, "News not found"⟩) := by
  constructor
  · intro lang eid h
    have hf : SAMPLE_EVENTS.find? (fun e => e.id == eid) = none :=
      List.find?_eq_none.mpr (fun e he => by simpa using h e he)
    simp [event_detail, hf]
  · intro lang nid h
    have hf : SAMPLE_NEWS.find? (fun n => n.id == nid) = none :=
      List.find?_eq_none.mpr (fun n hn => by simpa using h n hn)
    simp [news_detail, hf]

theorem c9_detail_endpoints_404_witness :
    (∀ e ∈ SAMPLE_EVENTS, e.id ≠ (99 : Int))
    ∧ event_detail "fr" 99 = .error ⟨404, "Event not found"⟩
    ∧ (∀ n ∈ SAMPLE_NEWS, n.id ≠ (99 : Int))
    ∧ news_detail "fr" 99 = .error ⟨404, "News not found"⟩ :=
  ⟨by decide,
   c9_detail_endpoints_404.1 "fr" 99 (by decide),
   by decide,
   c9_detail_endpoints_404.2 "fr" 99 (by decide)⟩

/-- C10: `get_data` returns the rows of the table on success and the empty list
when the storage read raises — it never propagates the exception — so the
`PARTNERS` and `GALLERIES` listings loaded at startup degrade to empty
lists when storage is unavailable. -/
theorem c10_get_data_never_raises :
    ∀ (R : Type) (store : SelectOracle R) (table : String),
      (∀ rows, store table = .ok rows → get_data store table = rows)
      ∧ (∀ msg, store table = .error msg → get_data store table = [])
      ∧ (∀ msg, store "partners" = .error msg → PARTNERS store = [])
      ∧ (∀ msg, store "galleries" = .error msg → GALLERIES store = []) := by
  intro R store table
  refine ⟨?_, ?_, ?_, ?_⟩ <;> intro a h <;> simp [get_data, PARTNERS, GALLERIES, h]

theorem c10_get_data_never_raises_witness :
    failSelect "partners" = .error "supabase unavailable"
    ∧ PARTNERS failSelect = []
    ∧ GALLERIES failSelect = [] :=
  ⟨rfl,
   (c10_get_data_never_raises Nat failSelect "partners").2.2.1 "supabase unavailable" rfl,
   (c10_get_data_never_raises Nat failSelect "partners").2.2.2 "supabase unavailable" rfl⟩

end PyTogo
